import Mathlib

/-!
Shallow embedding of the readwise-reader-sync engine (src/main.rs, src/api.rs,
src/db.rs, src/models.rs) for verification of its natural-language
specification.

Machine integers are modelled as `Nat`/`Int` with explicit range checks where
the Rust code checks ranges (`i64` in `serde_json::Number::as_i64`, `u64` in
`str::parse::<u64>`).  Timestamps (`chrono::DateTime<Utc>`) are modelled at
second precision as a civil date-time record; the calendar conversions used by
`chrono` (`DateTime::from_timestamp`, RFC 3339 parsing, `%Y-%m-%d` parsing)
are embedded via the standard proleptic-Gregorian civil-from-days /
days-from-civil algorithms with chrono's year range [-262144, 262143].
Fractional seconds are accepted and dropped (none of the verified behaviour
depends on sub-second precision).
-/

/-- A UTC timestamp at second precision: model of `chrono::DateTime<Utc>`. -/
structure Ts where
  year : Int
  month : Nat
  day : Nat
  hour : Nat
  minute : Nat
  second : Nat
deriving DecidableEq, Repr

/-- Civil date from days since the Unix epoch (proleptic Gregorian),
Hinnant's `civil_from_days`, as used by chrono's timestamp conversion.
Returns (year, month, day). -/
def civilFromDays (z : Int) : Int × Nat × Nat :=
  let zs := z + 719468
  let era := Int.fdiv zs 146097
  let doe := (zs - era * 146097).toNat
  let yoe := (doe - doe / 1460 + doe / 36524 - doe / 146096) / 365
  let y : Int := (yoe : Int) + era * 400
  let doy := doe - (365 * yoe + yoe / 4 - yoe / 100)
  let mp := (5 * doy + 2) / 153
  let d := doy - (153 * mp + 2) / 5 + 1
  let m := if mp < 10 then mp + 3 else mp - 9
  (if m ≤ 2 then y + 1 else y, m, d)

/-- Days since the Unix epoch of a civil date, Hinnant's `days_from_civil`. -/
def daysFromCivil (y : Int) (m d : Nat) : Int :=
  let ys := if m ≤ 2 then y - 1 else y
  let era := Int.fdiv ys 400
  let yoe := (ys - era * 400).toNat
  let doy := (153 * (if 2 < m then m - 3 else m + 9) + 2) / 5 + d - 1
  let doe := yoe * 365 + yoe / 4 - yoe / 100 + doy
  era * 146097 + (doe : Int) - 719468

/-- Model of `chrono::DateTime::from_timestamp(secs, 0)`: Unix epoch seconds to
a UTC timestamp, `none` when the resulting date falls outside chrono's
representable year range. -/
def fromTimestamp (secs : Int) : Option Ts :=
  let days := Int.fdiv secs 86400
  let sod := (secs - days * 86400).toNat
  let ymd := civilFromDays days
  if ymd.1 < -262144 ∨ 262143 < ymd.1 then none
  else some ⟨ymd.1, ymd.2.1, ymd.2.2, sod / 3600, sod % 3600 / 60, sod % 60⟩

/-- Whether `y` is a leap year in the proleptic Gregorian calendar. -/
def isLeapYear (y : Int) : Bool :=
  y % 4 = 0 ∧ (y % 100 ≠ 0 ∨ y % 400 = 0)

/-- Number of days in month `m` of year `y`. -/
def daysInMonth (y : Int) (m : Nat) : Nat :=
  if m = 2 then (if isLeapYear y then 29 else 28)
  else if m = 4 ∨ m = 6 ∨ m = 9 ∨ m = 11 then 30
  else 31

/-- Whether (y, m, d) is a valid civil date. -/
def validDate (y : Int) (m d : Nat) : Bool :=
  1 ≤ m ∧ m ≤ 12 ∧ 1 ≤ d ∧ d ≤ daysInMonth y m

/-- The numeric value of an ASCII digit, `none` for any other character. -/
def digitVal (c : Char) : Option Nat :=
  if '0' ≤ c ∧ c ≤ '9' then some (c.toNat - 48) else none

/-- Read exactly `n` ASCII digits from the front of `cs`, returning the value
and the rest. -/
def takeDigits : Nat → List Char → Option (Nat × List Char) → Option (Nat × List Char)
  | 0, cs, acc => acc.map (fun p => (p.1, cs))
  | _ + 1, [], _ => none
  | n + 1, c :: cs, acc =>
    match digitVal c, acc with
    | some v, some (a, _) => takeDigits n cs (some (a * 10 + v, cs))
    | _, _ => none

/-- Read exactly `n` ASCII digits as a number. -/
def readDigits (n : Nat) (cs : List Char) : Option (Nat × List Char) :=
  takeDigits n cs (some (0, cs))

/-- Drop a leading run of ASCII digits, requiring at least one. -/
def dropDigits1 : List Char → Option (List Char)
  | c :: cs =>
    if (digitVal c).isSome then
      some (dropDigitsRest cs)
    else none
  | [] => none
where
  /-- Drop a (possibly empty) leading run of ASCII digits. -/
  dropDigitsRest : List Char → List Char
  | c :: cs => if (digitVal c).isSome then dropDigitsRest cs else c :: cs
  | [] => []

/-- Parse the numeric UTC offset tail of an RFC 3339 string: `Z`/`z`, or
`±hh:mm`.  Returns the offset in seconds (east of UTC) and requires the
input to end there. -/
def parseOffset : List Char → Option Int
  | ['Z'] => some 0
  | ['z'] => some 0
  | c :: cs =>
    if c = '+' ∨ c = '-' then
      match readDigits 2 cs with
      | some (oh, rest1) =>
        match rest1 with
        | ':' :: rest2 =>
          match readDigits 2 rest2 with
          | some (om, []) =>
            if oh ≤ 23 ∧ om ≤ 59 then
              let secs : Int := (oh * 3600 + om * 60 : Nat)
              some (if c = '-' then -secs else secs)
            else none
          | _ => none
        | _ => none
      | none => none
    else none
  | [] => none

/-- Model of chrono's RFC 3339 date-time parsing as used by both
`str::parse::<DateTime<Utc>>` and chrono's serde `Deserialize` for
`DateTime<Utc>`: `YYYY-MM-DDThh:mm:ss[.frac](Z|±hh:mm)`, with `t`/`z`
and a space separator also accepted, normalised to UTC.  Fractional
seconds are parsed and dropped (second precision). -/
def parseRFC3339 (s : String) : Option Ts :=
  match readDigits 4 s.data with
  | none => none
  | some (y, r1) =>
  match r1 with
  | '-' :: r2 =>
    match readDigits 2 r2 with
    | none => none
    | some (mo, r3) =>
    match r3 with
    | '-' :: r4 =>
      match readDigits 2 r4 with
      | none => none
      | some (d, r5) =>
      match r5 with
      | sep :: r6 =>
        if sep = 'T' ∨ sep = 't' ∨ sep = ' ' then
          match readDigits 2 r6 with
          | none => none
          | some (h, r7) =>
          match r7 with
          | ':' :: r8 =>
            match readDigits 2 r8 with
            | none => none
            | some (mi, r9) =>
            match r9 with
            | ':' :: r10 =>
              match readDigits 2 r10 with
              | none => none
              | some (sec, r11) =>
              let fracDropped := match r11 with
                | '.' :: r12 => dropDigits1 r12
                | _ => some r11
              match fracDropped with
              | none => none
              | some r13 =>
              match parseOffset r13 with
              | none => none
              | some off =>
                if validDate y mo d ∧ h ≤ 23 ∧ mi ≤ 59 ∧ sec ≤ 59 then
                  fromTimestamp
                    (daysFromCivil y mo d * 86400
                      + (h * 3600 + mi * 60 + sec : Nat) - off)
                else none
            | _ => none
          | _ => none
        else none
      | [] => none
    | _ => none
  | _ => none

/-- Model of `chrono::NaiveDate::parse_from_str(s, "%Y-%m-%d")`: a 4-digit
year, two 2-digit fields, validated as a civil date, consuming the whole
string. -/
def parseDateOnly (s : String) : Option (Int × Nat × Nat) :=
  match readDigits 4 s.data with
  | some (y, '-' :: r1) =>
    match readDigits 2 r1 with
    | some (mo, '-' :: r2) =>
      match readDigits 2 r2 with
      | some (d, []) => if validDate y mo d then some (y, mo, d) else none
      | _ => none
    | _ => none
  | _ => none

/-- Midnight UTC of a civil date: model of
`date.and_hms_opt(0, 0, 0).unwrap().and_utc()`. -/
def midnightUtc (ymd : Int × Nat × Nat) : Ts :=
  ⟨ymd.1, ymd.2.1, ymd.2.2, 0, 0, 0⟩

/-- A `serde_json` number: an integer (JSON integer literals within
`u64`/`i64` range), or a floating-point representation (anything else).
`as_i64` is `none` on the float representation, as in `serde_json`. -/
inductive JNum where
  | int (i : Int)
  | float
deriving DecidableEq, Repr

/-- Model of `serde_json::Number::as_i64`. -/
def JNum.as_i64 : JNum → Option Int
  | .int i => if -(2 ^ 63) ≤ i ∧ i < 2 ^ 63 then some i else none
  | .float => none

/-- A `serde_json::Value`. -/
inductive Json where
  | null
  | bool (b : Bool)
  | num (n : JNum)
  | str (s : String)
  | arr (xs : List Json)
  | obj (kvs : List (String × Json))
deriving Repr

/-- Model of `models.rs::deserialize_published_date` applied to a decoded
`serde_json::Value` (deserializing into `Value` itself never fails):
null maps to `None`; a number is read as `i64` epoch seconds and converted,
with a decode error when the number is not an `i64` or the timestamp is out
of range; a string is tried as a full RFC 3339 date-time, then as a
date-only `%Y-%m-%d` (midnight UTC), then degrades to `None` with a logged
warning; any other shape degrades to `None` with a logged warning. -/
def modelsDeserializePublishedDate (v : Json) : Except String (Option Ts) :=
  match v with
  | .null => .ok none
  | .num n =>
    match n.as_i64 with
    | none => .error "invalid timestamp number"
    | some ts =>
      match fromTimestamp ts with
      | some dt => .ok (some dt)
      | none => .error "timestamp out of range"
  | .str s =>
    match parseRFC3339 s with
    | some dt => .ok (some dt)
    | none =>
      match parseDateOnly s with
      | some date => .ok (some (midnightUtc date))
      | none => .ok none
  | _ => .ok none

/-- Model of `main.rs::deserialize_published_date` at
`T = Option<DateTime<Utc>>` applied to a decoded `serde_json::Value`:
`T::deserialize(v)` succeeds with `None` on null and with the parsed
timestamp on an RFC 3339 string (chrono's serde impl of `Deserialize` for
`DateTime<Utc>` accepts only strings), and any failure is replaced by
`T::default()` (`None`) after a logged warning, so the function as a whole
never fails. -/
def mainDeserializePublishedDate (v : Json) : Option Ts :=
  match v with
  | .str s => parseRFC3339 s
  | _ => none

/-- `models.rs::Category` (closed enumeration of document categories). -/
inductive Category where
  | article | email | epub | highlight | note | pdf | rss | tweet | video
deriving DecidableEq, Repr

/-- `models.rs::Location` (closed enumeration of reading locations). -/
inductive Location where
  | archive | feed | later | new | shortlist
deriving DecidableEq, Repr

/-- `models.rs::ReaderResult`: one decoded remote document, which is also the
column set of one row of the `reading` table.  `reading_progress` is an `f32`
carried verbatim (never computed with); `word_count` is an `i32`; `tags` is
stored as an opaque JSON value. -/
structure ReaderResult where
  author : Option String
  category : Category
  content : Option String
  created_at : Ts
  id : String
  image_url : Option String
  location : Option Location
  notes : Option String
  parent_id : Option String
  published_date : Option Ts
  reading_progress : Float
  site_name : Option String
  source : Option String
  source_url : Option String
  summary : Option String
  tags : Option Json
  title : String
  updated_at : Option Ts
  readwise_url : Option String
  word_count : Int

/-- The `reading` table, keyed by document `id`. -/
def Store := String → Option ReaderResult

/-- The `ON CONFLICT (id) DO UPDATE SET` clause of `db.rs::save`: the incoming
row's values for exactly the fifteen listed columns, every other column kept
from the existing row. -/
def conflictUpdate (old incoming : ReaderResult) : ReaderResult :=
  { old with
    author := incoming.author
    content := incoming.content
    image_url := incoming.image_url
    location := incoming.location
    notes := incoming.notes
    published_date := incoming.published_date
    reading_progress := incoming.reading_progress
    site_name := incoming.site_name
    source := incoming.source
    source_url := incoming.source_url
    summary := incoming.summary
    tags := incoming.tags
    title := incoming.title
    updated_at := incoming.updated_at
    word_count := incoming.word_count }

/-- The database effect of a successful `db.rs::save` (`INSERT ... ON CONFLICT
(id) DO UPDATE SET ...`): insert the full row when no row with this `id`
exists, otherwise apply the conflict-update clause to the existing row. -/
def save (db : Store) (r : ReaderResult) : Store :=
  fun i =>
    if i = r.id then
      some (match db r.id with
        | none => r
        | some old => conflictUpdate old r)
    else db i

/-- Rust's `Debug` rendering of a `String` (quotes; inner escaping elided —
no verified behaviour depends on it). -/
def debugString (s : String) : String := "\"" ++ s ++ "\""

/-- Rust's `Debug` rendering of an `Option<String>`. -/
def debugOptString : Option String → String
  | none => "None"
  | some s => "Some(" ++ debugString s ++ ")"

/-- The error message attached by `db.rs::save`'s `map_err` when the database
rejects a row: it carries the record's title, id and source_url together with
the underlying database error `e`. -/
def saveErrMsg (r : ReaderResult) (e : String) : String :=
  "Failed to save '" ++ debugString r.title ++ "' (id=" ++ debugString r.id
    ++ ", source_url=" ++ debugOptString r.source_url ++ "): " ++ e

/-- The `sync_state` table: `none` when the single watermark row (id = 1) does
not exist, `some w` when it exists with nullable `last_sync_at = w`. -/
def SyncState := Option (Option Ts)

/-- `db.rs::load_checkpoint`: `SELECT last_sync_at FROM sync_state WHERE id = 1`
via `fetch_one`, which errors when the row does not exist and otherwise
returns the row's nullable timestamp. -/
def load_checkpoint (st : SyncState) : Except String (Option Ts) :=
  match st with
  | none => .error "RowNotFound"
  | some w => .ok w

/-- `db.rs::save_checkpoint`: upsert of the single watermark row. -/
def save_checkpoint (_ : SyncState) (ts : Ts) : SyncState :=
  some (some ts)

/-- Modelled from the spec: the schema migrations (run by `sqlx::migrate!` in
`main.rs` but not part of the four source files) bootstrap the one-row
`sync_state` table, so after startup the watermark row exists and "no
checkpoint yet" is that row with a NULL `last_sync_at`. -/
def freshSyncState : SyncState := some none

/-- Zero-pad a natural number to two digits (chrono `%M`-style). -/
def pad2 (n : Nat) : String :=
  if n < 10 then "0" ++ toString n else toString n

/-- Zero-pad a natural number to four digits (chrono `%Y`-style). -/
def pad4 (n : Nat) : String :=
  if n < 10 then "000" ++ toString n
  else if n < 100 then "00" ++ toString n
  else if n < 1000 then "0" ++ toString n
  else toString n

/-- chrono's `%Y` rendering of a (possibly negative) year. -/
def formatYear (y : Int) : String :=
  if y < 0 then "-" ++ pad4 y.natAbs else pad4 y.toNat

/-- `ts.format("%Y-%m-%dT%H:%M:%SZ")` from `api.rs::build_url`. -/
def formatTs (t : Ts) : String :=
  formatYear t.year ++ "-" ++ pad2 t.month ++ "-" ++ pad2 t.day ++ "T"
    ++ pad2 t.hour ++ ":" ++ pad2 t.minute ++ ":" ++ pad2 t.second ++ "Z"

/-- `api.rs::build_url` (textually identical in `main.rs`): base endpoint,
then `pageCursor=<c>` if a cursor is given, then `updatedAfter=<ts>` if a
filter is given, joined with `&` after a `?`. -/
def build_url (cursor : Option String) (updated_after : Option Ts) : String :=
  let base := "https://readwise.io/api/v3/list/"
  let params : List String :=
    (match cursor with
      | some c => ["pageCursor=" ++ c]
      | none => [])
    ++ (match updated_after with
      | some ts => ["updatedAfter=" ++ formatTs ts]
      | none => [])
  if params = [] then base
  else base ++ "?" ++ String.intercalate "&" params

/-- Accumulate ASCII digits into a number, failing on any non-digit. -/
def digitsToNat : List Char → Option Nat → Option Nat
  | [], acc => acc
  | c :: cs, acc =>
    match digitVal c, acc with
    | some v, some a => digitsToNat cs (some (a * 10 + v))
    | _, _ => none

/-- Model of Rust's `str::parse::<u64>`: an optional leading `+`, then at
least one ASCII digit, rejecting values outside `u64` range. -/
def parseU64 (s : String) : Option Nat :=
  let cs := match s.data with
    | '+' :: rest => rest
    | other => other
  match cs with
  | [] => none
  | _ =>
    (digitsToNat cs (some 0)).bind
      (fun n => if n < 2 ^ 64 then some n else none)

/-- The sleep chosen for a retryable HTTP status: the parsed `Retry-After`
header in seconds, or 60 when the header is absent or unparseable (with a
logged fallback warning). -/
def retryAfterSecs (h : Option String) : Nat :=
  (h.bind parseU64).getD 60

/-- One observable outcome of a single HTTP call made by
`api.rs::get_reading` / `main.rs::get_reading`: a successful response (body),
a `ureq::Error::Status` (these carry codes ≥ 400) with an optional
`Retry-After` header, or a `ureq::Error::Transport`. -/
inductive HttpOutcome where
  | success (body : String)
  | status (code : Nat) (retryAfter : Option String)
  | transport (msg : String)

/-- The unbounded retry loop of `get_reading`, run against a finite script of
per-call outcomes: returns the seconds slept between calls and the final
result — `some (.ok body)` for the first success, `some (.error code)` for a
non-retryable status, and `none` when the script is exhausted with the loop
still retrying.  HTTP 429 and every status ≥ 500 are retried after
`retryAfterSecs` of the response's `Retry-After` header; transport errors are
retried after a fixed 30 seconds; any other status aborts immediately with
the code surfaced in the error. -/
def getReading : List HttpOutcome → List Nat × Option (Except Nat String)
  | [] => ([], none)
  | .success body :: _ => ([], some (.ok body))
  | .status code ra :: rest =>
    if code = 429 ∨ 500 ≤ code then
      let z := getReading rest
      (retryAfterSecs ra :: z.1, z.2)
    else ([], some (.error code))
  | .transport _ :: rest =>
    let z := getReading rest
    (30 :: z.1, z.2)

/-- `models.rs::ReaderResponse` / `main.rs::ReaderResponse` as scripted for a
run: one decoded page, each result paired with the outcome of its `save` call
(`none` = the database accepted it, `some e` = the database rejected it with
error `e`). -/
structure PageScript where
  total_remaining : Nat
  next_page_cursor : Option String
  results : List (ReaderResult × Option String)

/-- The outcome of one page fetch as seen by the orchestrator: either a
decoded page, or the fatal error that `?` propagates — a non-retryable HTTP
error from `get_reading` or a structural deserialization failure of the page
body. -/
def PageOutcome := Except String PageScript

/-- The per-record loop of `main.rs::main` (lines 318–327): each `save` error
is caught, logged via `saveErrMsg` and counted, and processing continues with
the next record.  Returns the store after all accepted rows are saved, the
page's failure count, and the logged error messages. -/
def processResults (db : Store) : List (ReaderResult × Option String) → Store × Nat × List String
  | [] => (db, 0, [])
  | (r, none) :: rest => processResults (save db r) rest
  | (r, some e) :: rest =>
    let z := processResults db rest
    (z.1, z.2.1 + 1, saveErrMsg r e :: z.2.2)

/-- How the page loop ended. -/
inductive LoopResult where
  | done
  | fatal (e : String)
  | outOfScript
deriving DecidableEq, Repr

/-- Observable trace of the page loop: the `(cursor, updated_after)` argument
pair of every `build_url` call in order, the per-page failure counts, the
final store, and how the loop ended. -/
structure LoopTrace where
  params : List (Option String × Option Ts)
  fails : List Nat
  store : Store
  result : LoopResult

/-- The page loop of `main.rs::main` (lines 297–335), run against a finite
script of page outcomes: every iteration builds the URL from the current
cursor and the run's `updated_after` value, fetches the page (a fatal fetch
or decode error aborts the loop), saves every result (counting failures),
advances the cursor, and exits once the page carries no `nextPageCursor`.
`outOfScript` means the loop would have issued more requests than the script
provides. -/
def pageLoop (ua : Option Ts) (cursor : Option String) (db : Store) :
    List PageOutcome → LoopTrace
  | [] => ⟨[], [], db, .outOfScript⟩
  | o :: rest =>
    match o with
    | .error e => ⟨[(cursor, ua)], [], db, .fatal e⟩
    | .ok pg =>
      let pr := processResults db pg.results
      match pg.next_page_cursor with
      | none => ⟨[(cursor, ua)], [pr.2.1], pr.1, .done⟩
      | some c =>
        let z := pageLoop ua (some c) pr.1 rest
        ⟨(cursor, ua) :: z.params, pr.2.1 :: z.fails, z.store, z.result⟩

/-- How a whole run ended: exit code zero, a fatal error (non-zero exit), or
a script too short to finish the loop. -/
inductive RunExit where
  | ok
  | fatal (e : String)
  | outOfScript
deriving DecidableEq, Repr

/-- Observable result of one run: the `build_url` argument pairs of all
requests, per-page failure counts, the final `reading` store, the final
`sync_state`, the list of checkpoint writes performed, and the exit. -/
structure RunResult where
  params : List (Option String × Option Ts)
  fails : List Nat
  store : Store
  sync : SyncState
  writes : List Ts
  exit : RunExit

/-- `main.rs::main` from the checkpoint read to process exit (lines 275–341):
resolve `updated_after` (`none` under `--full-sync`, otherwise from
`load_checkpoint`, whose error aborts the run), then — with `start` the
wall-clock time captured before the first request — run the page loop; on
completion `save_checkpoint` writes `start` and the process exits zero; on a
fatal page outcome the run aborts with `sync_state` untouched and no
checkpoint write. -/
def runSync (fullSync : Bool) (cp : SyncState) (start : Ts) (db : Store)
    (pages : List PageOutcome) : RunResult :=
  match (if fullSync then Except.ok none else load_checkpoint cp) with
  | .error e => ⟨[], [], db, cp, [], .fatal e⟩
  | .ok ua =>
    let t := pageLoop ua none db pages
    match t.result with
    | .done => ⟨t.params, t.fails, t.store, save_checkpoint cp start, [start], .ok⟩
    | .fatal e => ⟨t.params, t.fails, t.store, cp, [], .fatal e⟩
    | .outOfScript => ⟨t.params, t.fails, t.store, cp, [], .outOfScript⟩

/-- A page-outcome script that drives the loop to completion: every fetch
succeeds, pages before the last carry a continuation cursor, and the last
page carries none. -/
def completes : List PageOutcome → Bool
  | [] => false
  | [Except.ok pg] => pg.next_page_cursor.isNone
  | Except.ok pg :: rest => pg.next_page_cursor.isSome && completes rest
  | Except.error _ :: _ => false

/-- The empty `reading` table. -/
def emptyStore : Store := fun _ => none

/-- A concrete document used to exercise the verified statements. -/
def docA : ReaderResult :=
  { author := none
    category := .article
    content := none
    created_at := ⟨2024, 1, 1, 0, 0, 0⟩
    id := "doc-1"
    image_url := none
    location := none
    notes := none
    parent_id := none
    published_date := none
    reading_progress := 0.5
    site_name := none
    source := none
    source_url := some "https://example.com/a"
    summary := none
    tags := none
    title := "A"
    updated_at := none
    readwise_url := some "https://readwise.io/a"
    word_count := 100 }

/-- A later fetch of the same document id with different field values. -/
def docB : ReaderResult :=
  { docA with
    title := "B"
    category := .email
    created_at := ⟨2025, 2, 2, 0, 0, 0⟩
    readwise_url := some "https://readwise.io/b"
    word_count := 200 }

/-- C7: persisting the same Document twice with an identical payload leaves
the store in the same state as persisting it once: for every store `db` and
Document `r`, `save (save db r) r = save db r`. -/
theorem save_idempotent : ∀ (db : Store) (r : ReaderResult),
    save (save db r) r = save db r := by
  intro db r
  funext i
  by_cases h : i = r.id
  · cases hdb : db r.id with
    | none => simp [save, h, hdb]; rfl
    | some old => simp [save, h, hdb]; rfl
  · simp [save, h]

/-- C4: `save` inserts all fields for an id seen for the first time; on an
existing id it applies exactly the conflict-update clause — the fifteen
mutable columns take the incoming values while `id`, `category`,
`created_at` and `parent_id` keep the stored values — and persisting id = X
with title "A" then title "B" leaves title "B" with the first persist's
`created_at` and `category` retained. -/
theorem save_upsert_semantics :
    (∀ (db : Store) (r : ReaderResult), db r.id = none → save db r r.id = some r)
    ∧ (∀ (db : Store) (r old : ReaderResult), db r.id = some old →
        save db r r.id = some (conflictUpdate old r)
        ∧ (conflictUpdate old r).id = old.id
        ∧ (conflictUpdate old r).category = old.category
        ∧ (conflictUpdate old r).created_at = old.created_at
        ∧ (conflictUpdate old r).parent_id = old.parent_id
        ∧ (conflictUpdate old r).author = r.author
        ∧ (conflictUpdate old r).content = r.content
        ∧ (conflictUpdate old r).image_url = r.image_url
        ∧ (conflictUpdate old r).location = r.location
        ∧ (conflictUpdate old r).notes = r.notes
        ∧ (conflictUpdate old r).published_date = r.published_date
        ∧ (conflictUpdate old r).reading_progress = r.reading_progress
        ∧ (conflictUpdate old r).site_name = r.site_name
        ∧ (conflictUpdate old r).source = r.source
        ∧ (conflictUpdate old r).source_url = r.source_url
        ∧ (conflictUpdate old r).summary = r.summary
        ∧ (conflictUpdate old r).tags = r.tags
        ∧ (conflictUpdate old r).title = r.title
        ∧ (conflictUpdate old r).updated_at = r.updated_at
        ∧ (conflictUpdate old r).word_count = r.word_count)
    ∧ (∀ (db : Store) (r1 r2 : ReaderResult), r2.id = r1.id → db r1.id = none →
        save (save db r1) r2 r2.id = some (conflictUpdate r1 r2)
        ∧ (conflictUpdate r1 r2).title = r2.title
        ∧ (conflictUpdate r1 r2).created_at = r1.created_at
        ∧ (conflictUpdate r1 r2).category = r1.category) := by
  refine ⟨?_, ?_, ?_⟩
  · intro db r h
    simp [save, h]
  · intro db r old h
    refine ⟨?_, rfl, rfl, rfl, rfl, rfl, rfl, rfl, rfl, rfl, rfl, rfl, rfl,
      rfl, rfl, rfl, rfl, rfl, rfl, rfl⟩
    simp [save, h]
  · intro db r1 r2 hid h
    refine ⟨?_, rfl, rfl, rfl⟩
    simp [save, hid, h]

/-- C4 witness: persisting `docA` (title "A") into the empty store and then
`docB` (same id, title "B") leaves title "B" with `created_at` and
`category` from `docA`. -/
theorem save_upsert_semantics_witness :
    save emptyStore docA docA.id = some docA
    ∧ save (save emptyStore docA) docB docB.id = some (conflictUpdate docA docB)
    ∧ (conflictUpdate docA docB).title = "B"
    ∧ (conflictUpdate docA docB).created_at = ⟨2024, 1, 1, 0, 0, 0⟩
    ∧ (conflictUpdate docA docB).category = Category.article := by
  refine ⟨save_upsert_semantics.1 emptyStore docA rfl, ?_⟩
  have h := save_upsert_semantics.2.2 emptyStore docA docB rfl rfl
  exact ⟨h.1, h.2.1, h.2.2.1.trans rfl, h.2.2.2.trans rfl⟩

/-- C9: on conflict the stored `readwise_url` is left unchanged (it is not in
the conflict-update column set), while a first insert writes the incoming
`readwise_url`. -/
theorem readwise_url_untouched_on_conflict :
    (∀ (db : Store) (r old : ReaderResult), db r.id = some old →
        save db r r.id = some (conflictUpdate old r)
        ∧ (conflictUpdate old r).readwise_url = old.readwise_url)
    ∧ (∀ (db : Store) (r : ReaderResult), db r.id = none →
        save db r r.id = some r) := by
  constructor
  · intro db r old h
    exact ⟨by simp [save, h], rfl⟩
  · intro db r h
    simp [save, h]

/-- C9 witness: after persisting `docA` and then `docB` (same id, different
`url`), the stored `readwise_url` is still `docA`'s. -/
theorem readwise_url_untouched_on_conflict_witness :
    save (save emptyStore docA) docB docB.id = some (conflictUpdate docA docB)
    ∧ (conflictUpdate docA docB).readwise_url = some "https://readwise.io/a"
    ∧ docB.readwise_url = some "https://readwise.io/b" := by
  have h := readwise_url_untouched_on_conflict.1 (save emptyStore docA) docB docA rfl
  exact ⟨h.1, h.2.trans rfl, rfl⟩

/-- C8: `load_checkpoint` returns the previously saved watermark when one was
saved, and a successful result carrying no timestamp — not an error — when no
checkpoint exists yet (the bootstrapped `sync_state` row with a NULL
`last_sync_at`). -/
theorem load_checkpoint_contract :
    (∀ (st : SyncState) (ts : Ts),
        load_checkpoint (save_checkpoint st ts) = .ok (some ts))
    ∧ load_checkpoint freshSyncState = .ok none
    ∧ ∀ e, load_checkpoint freshSyncState ≠ .error e := by
  exact ⟨fun st ts => rfl, rfl, fun e h => by simp [load_checkpoint, freshSyncState] at h⟩

/-- C3 counterexample: the explicit decoder maps the out-of-range epoch
integer 10^18 to a decoding error, not to absent as the claim states. -/
theorem published_date_out_of_range_is_error :
    modelsDeserializePublishedDate (.num (.int 1000000000000000000))
      = .error "timestamp out of range"
    ∧ modelsDeserializePublishedDate (.num (.int 1000000000000000000))
      ≠ .ok none := by
  refine ⟨rfl, ?_⟩
  intro h
  rw [(rfl : modelsDeserializePublishedDate (.num (.int 1000000000000000000))
      = .error "timestamp out of range")] at h
  exact Except.noConfusion h

/-- C3 (amended): the explicit `published_date` decoder maps null to absent,
an in-range epoch integer to the UTC timestamp at that epoch second
(1700000000 to 2023-11-14T22:13:20Z), an RFC 3339 date-time string to the
parsed timestamp, a date-only string such as "2026-01-30" to midnight UTC of
that date, and an unparseable string or a non-number/non-string shape to
absent with a logged warning — but a number outside the representable
timestamp range (or not an i64) fails decoding with an error rather than
degrading to absent. -/
theorem published_date_decode_matrix :
    modelsDeserializePublishedDate .null = .ok none
    ∧ (∀ (i : Int) (dt : Ts), fromTimestamp i = some dt →
        -(2 ^ 63) ≤ i → i < 2 ^ 63 →
        modelsDeserializePublishedDate (.num (.int i)) = .ok (some dt))
    ∧ modelsDeserializePublishedDate (.num (.int 1700000000))
        = .ok (some ⟨2023, 11, 14, 22, 13, 20⟩)
    ∧ (∀ (s : String) (dt : Ts), parseRFC3339 s = some dt →
        modelsDeserializePublishedDate (.str s) = .ok (some dt))
    ∧ modelsDeserializePublishedDate (.str "2026-01-30")
        = .ok (some ⟨2026, 1, 30, 0, 0, 0⟩)
    ∧ (∀ s : String, parseRFC3339 s = none → parseDateOnly s = none →
        modelsDeserializePublishedDate (.str s) = .ok none)
    ∧ modelsDeserializePublishedDate (.str "not-a-date") = .ok none
    ∧ (∀ b, modelsDeserializePublishedDate (.bool b) = .ok none)
    ∧ (∀ xs, modelsDeserializePublishedDate (.arr xs) = .ok none)
    ∧ (∀ kvs, modelsDeserializePublishedDate (.obj kvs) = .ok none)
    ∧ (∀ i : Int, fromTimestamp i = none → -(2 ^ 63) ≤ i → i < 2 ^ 63 →
        modelsDeserializePublishedDate (.num (.int i))
          = .error "timestamp out of range")
    ∧ (∀ n : JNum, n.as_i64 = none →
        modelsDeserializePublishedDate (.num n)
          = .error "invalid timestamp number") := by
  refine ⟨rfl, ?_, rfl, ?_, rfl, ?_, rfl, fun b => rfl, fun xs => rfl,
    fun kvs => rfl, ?_, ?_⟩
  · intro i dt hft h1 h2
    have hin : JNum.as_i64 (.int i) = some i := by
      simp only [JNum.as_i64]
      rw [if_pos ⟨h1, h2⟩]
    simp [modelsDeserializePublishedDate, hin, hft]
  · intro s dt h
    simp [modelsDeserializePublishedDate, h]
  · intro s h1 h2
    simp [modelsDeserializePublishedDate, h1, h2]
  · intro i hft h1 h2
    have hin : JNum.as_i64 (.int i) = some i := by
      simp only [JNum.as_i64]
      rw [if_pos ⟨h1, h2⟩]
    simp [modelsDeserializePublishedDate, hin, hft]
  · intro n h
    simp [modelsDeserializePublishedDate, h]

/-- C3 witness: the amended decode matrix at the spec's own test vectors plus
the out-of-range input 10^18. -/
theorem published_date_decode_matrix_witness :
    modelsDeserializePublishedDate (.num (.int 1700000000))
      = .ok (some ⟨2023, 11, 14, 22, 13, 20⟩)
    ∧ modelsDeserializePublishedDate (.str "not-a-date") = .ok none
    ∧ modelsDeserializePublishedDate (.num (.int 1000000000000000000))
      = .error "timestamp out of range" := by
  refine ⟨published_date_decode_matrix.2.1 1700000000 ⟨2023, 11, 14, 22, 13, 20⟩
      (by decide) (by decide) (by decide),
    published_date_decode_matrix.2.2.2.2.2.1 "not-a-date" (by decide) (by decide),
    published_date_decode_matrix.2.2.2.2.2.2.2.2.2.2.1 1000000000000000000
      (by decide) (by decide) (by decide)⟩

/-- C10 counterexample: the two decoders disagree on the date-only string
"2026-01-30" (explicit decoder: midnight UTC; generic fallback decoder:
absent) and on the epoch integer 1700000000 (explicit: the 2023 timestamp;
generic: absent). -/
theorem decoders_disagree :
    modelsDeserializePublishedDate (.str "2026-01-30")
      = .ok (some ⟨2026, 1, 30, 0, 0, 0⟩)
    ∧ mainDeserializePublishedDate (.str "2026-01-30") = none
    ∧ modelsDeserializePublishedDate (.str "2026-01-30")
      ≠ .ok (mainDeserializePublishedDate (.str "2026-01-30"))
    ∧ modelsDeserializePublishedDate (.num (.int 1700000000))
      = .ok (some ⟨2023, 11, 14, 22, 13, 20⟩)
    ∧ mainDeserializePublishedDate (.num (.int 1700000000)) = none
    ∧ modelsDeserializePublishedDate (.num (.int 1700000000))
      ≠ .ok (mainDeserializePublishedDate (.num (.int 1700000000))) := by
  refine ⟨rfl, rfl, ?_, rfl, rfl, ?_⟩
  · intro h
    rw [(rfl : mainDeserializePublishedDate (.str "2026-01-30") = none),
      (rfl : modelsDeserializePublishedDate (.str "2026-01-30")
        = .ok (some ⟨2026, 1, 30, 0, 0, 0⟩))] at h
    injection h with h2
    exact Option.noConfusion h2
  · intro h
    rw [(rfl : mainDeserializePublishedDate (.num (.int 1700000000)) = none),
      (rfl : modelsDeserializePublishedDate (.num (.int 1700000000))
        = .ok (some ⟨2023, 11, 14, 22, 13, 20⟩))] at h
    injection h with h2
    exact Option.noConfusion h2

/-- C10 (amended): the explicit decoder and the generic fallback decoder
agree on null, on booleans, arrays and objects, on full RFC 3339 date-time
strings, and on strings parseable as neither format — but they disagree on
every JSON number (the generic decoder always yields absent while the
explicit one parses in-range i64 epochs and errors otherwise) and on
date-only strings (explicit: midnight UTC; generic: absent). -/
theorem decoders_partial_agreement :
    modelsDeserializePublishedDate .null = .ok (mainDeserializePublishedDate .null)
    ∧ (∀ b, modelsDeserializePublishedDate (.bool b)
        = .ok (mainDeserializePublishedDate (.bool b)))
    ∧ (∀ xs, modelsDeserializePublishedDate (.arr xs)
        = .ok (mainDeserializePublishedDate (.arr xs)))
    ∧ (∀ kvs, modelsDeserializePublishedDate (.obj kvs)
        = .ok (mainDeserializePublishedDate (.obj kvs)))
    ∧ (∀ (s : String) (dt : Ts), parseRFC3339 s = some dt →
        modelsDeserializePublishedDate (.str s) = .ok (some dt)
        ∧ mainDeserializePublishedDate (.str s) = some dt)
    ∧ (∀ s : String, parseRFC3339 s = none → parseDateOnly s = none →
        modelsDeserializePublishedDate (.str s)
          = .ok (mainDeserializePublishedDate (.str s)))
    ∧ (∀ (s : String) (d : Int × Nat × Nat), parseRFC3339 s = none →
        parseDateOnly s = some d →
        modelsDeserializePublishedDate (.str s) = .ok (some (midnightUtc d))
        ∧ mainDeserializePublishedDate (.str s) = none)
    ∧ (∀ n : JNum, mainDeserializePublishedDate (.num n) = none)
    ∧ (∀ n : JNum, modelsDeserializePublishedDate (.num n)
        ≠ .ok (mainDeserializePublishedDate (.num n))) := by
  refine ⟨rfl, fun b => rfl, fun xs => rfl, fun kvs => rfl, ?_, ?_, ?_,
    fun n => rfl, ?_⟩
  · intro s dt h
    exact ⟨by simp [modelsDeserializePublishedDate, h],
      by simp [mainDeserializePublishedDate, h]⟩
  · intro s h1 h2
    simp [modelsDeserializePublishedDate, mainDeserializePublishedDate, h1, h2]
  · intro s d h1 h2
    exact ⟨by simp [modelsDeserializePublishedDate, h1, h2],
      by simp [mainDeserializePublishedDate, h1]⟩
  · intro n
    cases hn : n.as_i64 with
    | none =>
      simp [modelsDeserializePublishedDate, mainDeserializePublishedDate, hn]
    | some ts =>
      cases hft : fromTimestamp ts with
      | none =>
        simp [modelsDeserializePublishedDate, mainDeserializePublishedDate, hn, hft]
      | some dt =>
        simp [modelsDeserializePublishedDate, mainDeserializePublishedDate, hn, hft]

/-- C10 witness: the partial-agreement theorem at the RFC 3339 string
"2023-11-14T22:13:20Z", the unparseable string "not-a-date", and the
date-only string "2026-01-30". -/
theorem decoders_partial_agreement_witness :
    (modelsDeserializePublishedDate (.str "2023-11-14T22:13:20Z")
        = .ok (some ⟨2023, 11, 14, 22, 13, 20⟩)
      ∧ mainDeserializePublishedDate (.str "2023-11-14T22:13:20Z")
        = some ⟨2023, 11, 14, 22, 13, 20⟩)
    ∧ modelsDeserializePublishedDate (.str "not-a-date")
      = .ok (mainDeserializePublishedDate (.str "not-a-date"))
    ∧ (modelsDeserializePublishedDate (.str "2026-01-30")
        = .ok (some (midnightUtc (2026, 1, 30)))
      ∧ mainDeserializePublishedDate (.str "2026-01-30") = none) := by
  refine ⟨decoders_partial_agreement.2.2.2.2.1 "2023-11-14T22:13:20Z"
      ⟨2023, 11, 14, 22, 13, 20⟩ (by decide),
    decoders_partial_agreement.2.2.2.2.2.1 "not-a-date" (by decide) (by decide),
    decoders_partial_agreement.2.2.2.2.2.2.1 "2026-01-30" (2026, 1, 30)
      (by decide) (by decide)⟩

/-- C6: `get_reading` returns the first successful response; on HTTP 429 or
any status ≥ 500 it sleeps for the parsed `Retry-After` seconds (60 with a
logged fallback when the header is absent or unparseable) and retries; on a
transport failure it sleeps a fixed 30 seconds and retries; on any other
status it fails immediately with the code surfaced in the error; and for the
outcome sequence [429 Retry-After 2, 429 Retry-After 2, 200] it returns the
successful page after the two waits without an error. -/
theorem get_reading_retry_policy :
    (∀ (body : String) (rest : List HttpOutcome),
        getReading (.success body :: rest) = ([], some (.ok body)))
    ∧ (∀ (code : Nat) (ra : Option String) (rest : List HttpOutcome),
        code = 429 ∨ 500 ≤ code →
        getReading (.status code ra :: rest)
          = (retryAfterSecs ra :: (getReading rest).1, (getReading rest).2))
    ∧ retryAfterSecs none = 60
    ∧ (∀ s : String, parseU64 s = none → retryAfterSecs (some s) = 60)
    ∧ (∀ (s : String) (n : Nat), parseU64 s = some n → retryAfterSecs (some s) = n)
    ∧ (∀ (m : String) (rest : List HttpOutcome),
        getReading (.transport m :: rest)
          = (30 :: (getReading rest).1, (getReading rest).2))
    ∧ (∀ (code : Nat) (ra : Option String) (rest : List HttpOutcome),
        code ≠ 429 → code < 500 →
        getReading (.status code ra :: rest) = ([], some (.error code)))
    ∧ (∀ body : String,
        getReading [.status 429 (some "2"), .status 429 (some "2"), .success body]
          = ([2, 2], some (.ok body))) := by
  refine ⟨fun body rest => rfl, ?_, rfl, ?_, ?_, fun m rest => rfl, ?_, ?_⟩
  · intro code ra rest h
    rw [getReading, if_pos h]
  · intro s h
    simp [retryAfterSecs, h]
  · intro s n h
    simp [retryAfterSecs, h]
  · intro code ra rest h1 h2
    rw [getReading, if_neg ?_]
    intro h
    rcases h with h | h
    · exact h1 h
    · exact absurd h2 (not_lt.mpr h)
  · intro body
    rfl

/-- C6 witness: the retry policy at HTTP 500 with `Retry-After: 7`, at an
unparseable `Retry-After` value, at HTTP 404 (non-retryable), and at the
spec's [429, 429, 200] sequence. -/
theorem get_reading_retry_policy_witness :
    getReading [.status 500 (some "7"), .success "page"]
      = (7 :: (getReading [.success "page"]).1, (getReading [.success "page"]).2)
    ∧ retryAfterSecs (some "soon") = 60
    ∧ retryAfterSecs (some "7") = 7
    ∧ getReading [.status 404 none, .success "page"] = ([], some (.error 404))
    ∧ getReading [.status 429 (some "2"), .status 429 (some "2"), .success "page"]
      = ([2, 2], some (.ok "page")) := by
  refine ⟨?_, get_reading_retry_policy.2.2.2.1 "soon" (by decide),
    get_reading_retry_policy.2.2.2.2.1 "7" 7 (by decide),
    get_reading_retry_policy.2.2.2.2.2.2.1 404 none [.success "page"]
      (by decide) (by decide),
    get_reading_retry_policy.2.2.2.2.2.2.2 "page"⟩
  have h := get_reading_retry_policy.2.1 500 (some "7") [.success "page"]
    (Or.inr (by decide))
  rw [h, get_reading_retry_policy.2.2.2.2.1 "7" 7 (by decide)]

/-- The per-record loop saves every accepted record, counts every rejected
one, and logs one identifying message per rejection (helper). -/
theorem processResults_eq :
    ∀ (rs : List (ReaderResult × Option String)) (db : Store),
      processResults db rs =
        (rs.foldl
          (fun s p => match p.2 with | none => save s p.1 | some _ => s) db,
         (rs.filter fun p => p.2.isSome).length,
         rs.filterMap fun p => p.2.map (saveErrMsg p.1)) := by
  intro rs
  induction rs with
  | nil => intro db; rfl
  | cons p rest ih =>
    intro db
    obtain ⟨r, e⟩ := p
    cases e with
    | none =>
      simp only [processResults, ih (save db r), List.foldl_cons,
        List.filter_cons, List.filterMap_cons]
      simp
    | some err =>
      simp only [processResults, ih db, List.foldl_cons,
        List.filter_cons, List.filterMap_cons]
      simp [Nat.add_comm]

/-- A script that `completes` drives the page loop to a `done` result
(helper). -/
theorem pageLoop_done_of_completes :
    ∀ (pages : List PageOutcome) (ua : Option Ts) (cursor : Option String)
      (db : Store),
      completes pages = true → (pageLoop ua cursor db pages).result = .done := by
  intro pages
  induction pages with
  | nil => intro ua cursor db h; simp [completes] at h
  | cons o rest ih =>
    intro ua cursor db h
    cases o with
    | error e =>
      rw [show completes (Except.error e :: rest) = false from rfl] at h
      exact absurd h (by simp)
    | ok pg =>
      cases rest with
      | nil =>
        cases hnc : pg.next_page_cursor with
        | none => simp [pageLoop, hnc]
        | some c =>
          rw [show completes [Except.ok pg] = pg.next_page_cursor.isNone from rfl,
            hnc] at h
          exact absurd h (by simp)
      | cons o2 rest2 =>
        rw [show completes (Except.ok pg :: o2 :: rest2)
            = (pg.next_page_cursor.isSome && completes (o2 :: rest2)) from rfl] at h
        cases hnc : pg.next_page_cursor with
        | none => rw [hnc] at h; exact absurd h (by simp)
        | some c =>
          simp only [pageLoop, hnc]
          exact ih ua (some c) (processResults db pg.results).1
            (by rw [hnc] at h; simpa using (Bool.and_eq_true_iff.mp h).2)

/-- C1 counterexample: in an incremental run (checkpoint 2024-01-01T00:00:00Z)
whose first page carries cursor "c1", the second request — the one carrying a
pageCursor — is still built with the `updated_after` filter, and its URL
contains the updatedAfter parameter, contradicting the claim that subsequent
requests specify only the cursor. -/
theorem updated_after_not_first_page_only :
    (runSync false (some (some ⟨2024, 1, 1, 0, 0, 0⟩)) ⟨2024, 1, 2, 0, 0, 0⟩
        emptyStore
        [Except.ok ⟨1, some "c1", []⟩, Except.ok ⟨0, none, []⟩]).params
      = [(none, some ⟨2024, 1, 1, 0, 0, 0⟩),
         (some "c1", some ⟨2024, 1, 1, 0, 0, 0⟩)]
    ∧ (some (⟨2024, 1, 1, 0, 0, 0⟩ : Ts) ≠ (none : Option Ts))
    ∧ build_url (some "c1") (some ⟨2024, 1, 1, 0, 0, 0⟩)
      = "https://readwise.io/api/v3/list/?pageCursor=c1&updatedAfter=2024-01-01T00:00:00Z" := by
  exact ⟨rfl, by simp, rfl⟩

/-- C1 (amended): the page loop passes the run's `updated_after` value to
`build_url` on every request, not only the first — the first request is built
from (no cursor, filter) and every subsequent request from (cursor, filter).
-/
theorem updated_after_on_every_request :
    ∀ (ua : Option Ts) (cursor : Option String) (db : Store)
      (pages : List PageOutcome),
      (∀ p ∈ (pageLoop ua cursor db pages).params, p.2 = ua)
      ∧ (pages ≠ [] → (pageLoop ua cursor db pages).params.head? = some (cursor, ua))
      ∧ ∀ (cp : SyncState) (start : Ts),
          load_checkpoint cp = .ok ua →
          (runSync false cp start db pages).params
            = (pageLoop ua none db pages).params := by
  intro ua cursor db pages
  refine ⟨?_, ?_, ?_⟩
  · induction pages generalizing cursor db with
    | nil => intro p hp; simp [pageLoop] at hp
    | cons o rest ih =>
      intro p hp
      cases o with
      | error e =>
        simp [pageLoop] at hp
        rw [hp]
      | ok pg =>
        cases hnc : pg.next_page_cursor with
        | none =>
          simp [pageLoop, hnc] at hp
          rw [hp]
        | some c =>
          simp only [pageLoop, hnc, List.mem_cons] at hp
          rcases hp with hp | hp
          · rw [hp]
          · exact ih (some c) (processResults db pg.results).1 p hp
  · intro hne
    cases pages with
    | nil => exact absurd rfl hne
    | cons o rest =>
      cases o with
      | error e => rfl
      | ok pg =>
        cases hnc : pg.next_page_cursor with
        | none => simp [pageLoop, hnc]
        | some c => simp [pageLoop, hnc]
  · intro cp start h
    cases hr : (pageLoop ua none db pages).result with
    | done => simp [runSync, h, hr]
    | fatal e => simp [runSync, h, hr]
    | outOfScript => simp [runSync, h, hr]

/-- C1 witness: the amended theorem at the counterexample's run — both
requests of the two-page incremental run carry the checkpoint filter, and the
first request carries no cursor. -/
theorem updated_after_on_every_request_witness :
    (∀ p ∈ (pageLoop (some ⟨2024, 1, 1, 0, 0, 0⟩) none emptyStore
        [Except.ok ⟨1, some "c1", []⟩, Except.ok ⟨0, none, []⟩]).params,
      p.2 = some ⟨2024, 1, 1, 0, 0, 0⟩)
    ∧ (pageLoop (some ⟨2024, 1, 1, 0, 0, 0⟩) none emptyStore
        [Except.ok ⟨1, some "c1", []⟩, Except.ok ⟨0, none, []⟩]).params.head?
      = some (none, some ⟨2024, 1, 1, 0, 0, 0⟩)
    ∧ (runSync false (some (some ⟨2024, 1, 1, 0, 0, 0⟩)) ⟨2024, 1, 2, 0, 0, 0⟩
        emptyStore
        [Except.ok ⟨1, some "c1", []⟩, Except.ok ⟨0, none, []⟩]).params
      = (pageLoop (some ⟨2024, 1, 1, 0, 0, 0⟩) none emptyStore
        [Except.ok ⟨1, some "c1", []⟩, Except.ok ⟨0, none, []⟩]).params := by
  have h := updated_after_on_every_request (some ⟨2024, 1, 1, 0, 0, 0⟩) none
    emptyStore [Except.ok ⟨1, some "c1", []⟩, Except.ok ⟨0, none, []⟩]
  exact ⟨h.1, h.2.1 (by simp), h.2.2 (some (some ⟨2024, 1, 1, 0, 0, 0⟩))
    ⟨2024, 1, 2, 0, 0, 0⟩ rfl⟩

/-- C2: the checkpoint is written exactly once, with the pre-loop start time,
if and only when the page loop consumed every page (`done`); on a fatal page
fetch or page decode failure the run aborts with no checkpoint write and the
stored `sync_state` unchanged. -/
theorem checkpoint_commit_discipline :
    ∀ (fs : Bool) (cp : SyncState) (start : Ts) (db : Store)
      (pages : List PageOutcome),
      ((runSync fs cp start db pages).exit = .ok →
          (runSync fs cp start db pages).writes = [start]
          ∧ (runSync fs cp start db pages).sync = some (some start)
          ∧ ∃ ua, (if fs then Except.ok none else load_checkpoint cp) = .ok ua
              ∧ (pageLoop ua none db pages).result = .done)
      ∧ (∀ e, (runSync fs cp start db pages).exit = .fatal e →
          (runSync fs cp start db pages).writes = []
          ∧ (runSync fs cp start db pages).sync = cp)
      ∧ ((runSync fs cp start db pages).exit = .outOfScript →
          (runSync fs cp start db pages).writes = []
          ∧ (runSync fs cp start db pages).sync = cp) := by
  intro fs cp start db pages
  cases hl : (if fs then Except.ok none else load_checkpoint cp) with
  | error e => simp [runSync, hl]
  | ok ua =>
    cases hr : (pageLoop ua none db pages).result with
    | done =>
      refine ⟨fun _ => ⟨?_, ?_, ⟨ua, rfl, hr⟩⟩, fun e he => ?_, fun ho => ?_⟩
      · simp [runSync, hl, hr]
      · simp [runSync, hl, hr, save_checkpoint]
      · simp [runSync, hl, hr] at he
      · simp [runSync, hl, hr] at ho
    | fatal e => simp [runSync, hl, hr]
    | outOfScript => simp [runSync, hl, hr]

/-- C2 witness: a one-page successful run writes exactly [start] and commits
`start`; a run whose only page fetch fails fatally writes nothing and leaves
the checkpoint at its pre-run value. -/
theorem checkpoint_commit_discipline_witness :
    (runSync false (some none) ⟨2024, 6, 1, 12, 0, 0⟩ emptyStore
        [Except.ok ⟨0, none, []⟩]).writes = [⟨2024, 6, 1, 12, 0, 0⟩]
    ∧ (runSync false (some none) ⟨2024, 6, 1, 12, 0, 0⟩ emptyStore
        [Except.ok ⟨0, none, []⟩]).sync = some (some ⟨2024, 6, 1, 12, 0, 0⟩)
    ∧ (runSync false (some (some ⟨2024, 1, 1, 0, 0, 0⟩)) ⟨2024, 6, 1, 12, 0, 0⟩
        emptyStore [Except.error "Non-retryable HTTP error 404"]).writes = []
    ∧ (runSync false (some (some ⟨2024, 1, 1, 0, 0, 0⟩)) ⟨2024, 6, 1, 12, 0, 0⟩
        emptyStore [Except.error "Non-retryable HTTP error 404"]).sync
      = some (some ⟨2024, 1, 1, 0, 0, 0⟩) := by
  have h1 := (checkpoint_commit_discipline false (some none) ⟨2024, 6, 1, 12, 0, 0⟩
    emptyStore [Except.ok ⟨0, none, []⟩]).1 rfl
  have h2 := (checkpoint_commit_discipline false (some (some ⟨2024, 1, 1, 0, 0, 0⟩))
    ⟨2024, 6, 1, 12, 0, 0⟩ emptyStore
    [Except.error "Non-retryable HTTP error 404"]).2.1
    "Non-retryable HTTP error 404" rfl
  exact ⟨h1.1, h1.2.1, h2.1, h2.2⟩

/-- C5: a `save` failure for one record neither stops the remaining records
of its page (the per-record loop folds over the whole page, counting one
failure and logging one message with the record's title, id and source_url
per rejected record) nor the run: an incremental run over a completing
script exits zero and commits the checkpoint regardless of per-record
failures. -/
theorem record_failures_do_not_abort :
    (∀ (db : Store) (rs : List (ReaderResult × Option String)),
        processResults db rs =
          (rs.foldl
            (fun s p => match p.2 with | none => save s p.1 | some _ => s) db,
           (rs.filter fun p => p.2.isSome).length,
           rs.filterMap fun p => p.2.map (saveErrMsg p.1)))
    ∧ ∀ (cp : SyncState) (ua : Option Ts) (start : Ts) (db : Store)
        (pages : List PageOutcome),
        load_checkpoint cp = .ok ua → completes pages = true →
        (runSync false cp start db pages).exit = .ok
        ∧ (runSync false cp start db pages).writes = [start]
        ∧ (runSync false cp start db pages).sync = some (some start) := by
  refine ⟨fun db rs => processResults_eq rs db, ?_⟩
  intro cp ua start db pages hl hc
  have hr := pageLoop_done_of_completes pages ua none db hc
  simp [runSync, hl, hr, save_checkpoint]

/-- C5 witness: a run whose single page contains a rejected record and an
accepted one still exits zero, counts the one failure, logs the identifying
message, and commits the checkpoint. -/
theorem record_failures_do_not_abort_witness :
    (runSync false (some none) ⟨2024, 6, 1, 12, 0, 0⟩ emptyStore
        [Except.ok ⟨2, none, [(docA, some "db constraint"), (docB, none)]⟩]).exit
      = .ok
    ∧ (runSync false (some none) ⟨2024, 6, 1, 12, 0, 0⟩ emptyStore
        [Except.ok ⟨2, none, [(docA, some "db constraint"), (docB, none)]⟩]).writes
      = [⟨2024, 6, 1, 12, 0, 0⟩]
    ∧ (runSync false (some none) ⟨2024, 6, 1, 12, 0, 0⟩ emptyStore
        [Except.ok ⟨2, none, [(docA, some "db constraint"), (docB, none)]⟩]).fails
      = [1]
    ∧ processResults emptyStore [(docA, some "db constraint"), (docB, none)]
      = (save emptyStore docB, 1,
         ["Failed to save '\"A\"' (id=\"doc-1\", source_url=Some(\"https://example.com/a\")): db constraint"]) := by
  have h := record_failures_do_not_abort.2 (some none) none ⟨2024, 6, 1, 12, 0, 0⟩
    emptyStore [Except.ok ⟨2, none, [(docA, some "db constraint"), (docB, none)]⟩]
    rfl rfl
  refine ⟨h.1, h.2.1, rfl, ?_⟩
  rw [record_failures_do_not_abort.1 emptyStore
    [(docA, some "db constraint"), (docB, none)]]
  rfl
